import Mathlib

/-!
Verification of the TransitFlow crowd-prediction pipeline.

This file gives a shallow embedding of the core prediction pipeline of the
repository (app/ml_model.py, app/api.py, app/cache.py) and proves or refutes
the frozen claims about it.

Conventions of the embedding:
* Python floats are modelled by exact rationals (`ℚ`).
* sklearn internals that are not part of the repository are embedded by their
  documented contracts; the two pieces whose numeric content no claim depends
  on (the square root inside `StandardScaler.fit` and the learned random
  forest) are taken as explicit function parameters (`SkLib`).
* `numpy` randomness (`np.random.choice`) is modelled by an explicit stream of
  Bernoulli outcomes passed to the feature builder, making the hidden global
  RNG state an explicit input.
* Exceptions are modelled by `Except PyExc`; FastAPI responses by
  `HttpResult`.  In-place mutation of the `CrowdPredictor` singleton is
  modelled by explicit state passing: each operation returns the bundle that
  is in memory after the call, including after a failing call.
-/

/-- A parsed Python `datetime` value (no timezone, as in the source). -/
structure PyDatetime where
  year : Nat
  month : Nat
  day : Nat
  hour : Nat
  minute : Nat
  second : Nat
deriving DecidableEq, Repr

/-- Day of week, Sunday = 0, by Sakamoto's method (Gregorian calendar
arithmetic, a single fixed time reference as in the source). -/
def dowSun0 (y m d : Nat) : Nat :=
  let t : List Nat := [0, 3, 2, 5, 0, 3, 5, 1, 4, 6, 2, 4]
  let y' : Int := if m < 3 then (y : Int) - 1 else (y : Int)
  (((y' + y' / 4 - y' / 100 + y' / 400 + (t.getD (m - 1) 0 : Nat) + (d : Nat)) % 7)).toNat

/-- Python `datetime.weekday()` as used on the inference path: Monday = 0. -/
def pyWeekday (t : PyDatetime) : Nat :=
  (dowSun0 t.year t.month t.day + 6) % 7

/-- The pandas `Series.dt.dayofweek` as used on the training path: Monday = 0. -/
def pdDayofweek (t : PyDatetime) : Nat :=
  (dowSun0 t.year t.month t.day + 6) % 7

def digitVal (c : Char) : Option Nat :=
  if c.isDigit then some (c.toNat - 48) else none

def twoDigits (a b : Char) : Option Nat := do
  let x ← digitVal a
  let y ← digitVal b
  pure (10 * x + y)

def isLeapYear (y : Nat) : Bool :=
  y % 4 == 0 && (y % 100 != 0 || y % 400 == 0)

def daysInMonth (y m : Nat) : Nat :=
  if m = 2 then (if isLeapYear y then 29 else 28)
  else if m = 4 ∨ m = 6 ∨ m = 9 ∨ m = 11 then 30
  else 31

/-- Parse a strict `YYYY-MM-DD` date (the `%Y-%m-%d` part of the fixed
format), validating the calendar ranges as `datetime.strptime` does. -/
def parseDate (s : String) : Option (Nat × Nat × Nat) :=
  match s.toList with
  | [y1, y2, y3, y4, h1, m1, m2, h2, d1, d2] =>
    if h1 = '-' ∧ h2 = '-' then do
      let a ← digitVal y1
      let b ← digitVal y2
      let c ← digitVal y3
      let d ← digitVal y4
      let y := 1000 * a + 100 * b + 10 * c + d
      let mo ← twoDigits m1 m2
      let da ← twoDigits d1 d2
      if 1 ≤ mo ∧ mo ≤ 12 ∧ 1 ≤ da ∧ da ≤ daysInMonth y mo then
        pure (y, mo, da)
      else none
    else none
  | _ => none

/-- Parse a strict `HH:MM:SS` time (the `%H:%M:%S` part of the fixed
format). -/
def parseTime (s : String) : Option (Nat × Nat × Nat) :=
  match s.toList with
  | [h1, h2, c1, m1, m2, c2, s1, s2] =>
    if c1 = ':' ∧ c2 = ':' then do
      let h ← twoDigits h1 h2
      let mi ← twoDigits m1 m2
      let se ← twoDigits s1 s2
      if h ≤ 23 ∧ mi ≤ 59 ∧ se ≤ 59 then pure (h, mi, se) else none
    else none
  | _ => none

/-- Embeds `datetime.strptime(date ++ " " ++ time, "%Y-%m-%d %H:%M:%S")`;
`none` models the `ValueError` raised on a format mismatch. -/
def strptime_ymd_hms (date time : String) : Option PyDatetime := do
  let (y, mo, d) ← parseDate date
  let (h, mi, s) ← parseTime time
  pure ⟨y, mo, d, h, mi, s⟩

/-- Python exceptions distinguished by the boundary layer's handlers. -/
inductive PyExc where
  | valueError (msg : String)
  | keyError (key : String)
  | httpExc (status : Nat) (detail : String)
  | notFitted
deriving DecidableEq, Repr

/-- Python `str(e)` for the exceptions above (`str` of an `HTTPException` is
`"{status_code}: {detail}"`, of a `KeyError` the quoted key). -/
def PyExc.str : PyExc → String
  | .valueError m => m
  | .keyError k => "'" ++ k ++ "'"
  | .httpExc c d => toString c ++ ": " ++ d
  | .notFitted => "This estimator instance is not fitted yet."

/-- A FastAPI route outcome: a response body or an `HTTPException`. -/
inductive HttpResult (α : Type) where
  | ok (value : α)
  | httpError (status : Nat) (detail : String)
deriving DecidableEq, Repr

/-- One row of the `routes` table as the core consumes it. -/
structure RouteRec where
  id : String
  long_name : String
  route_type : Int
deriving DecidableEq, Repr

/-- One row of the `trips` table as the core consumes it. -/
structure TripRec where
  id : String
  route_id : String
  service_id : String
deriving DecidableEq, Repr

/-- One row of the `stops` table as the core consumes it. -/
structure StopRec where
  id : String
  name : String
  latitude : ℚ
  longitude : ℚ
  zone_id : Option String
deriving DecidableEq, Repr

/-- One stored observation row (`boarding_count` and `alighting_count` are
nonnegative integers per the data model). -/
structure Observation where
  id : Nat
  trip_id : String
  stop_id : String
  observation_time : PyDatetime
  boarding_count : Nat
  alighting_count : Nat
  crowd_level : Option String
  weather_condition : Option String
  temperature : Option ℚ
  notes : Option String
deriving DecidableEq, Repr

/-- The storage collaborator's visible state. -/
structure Db where
  routes : List RouteRec
  trips : List TripRec
  stops : List StopRec
  observations : List Observation
deriving DecidableEq, Repr

/-! ## The prediction cache (app/cache.py) -/

/-- The prediction response schema (app/schemas.py `PredictionResponse`). -/
structure PredictionResponse where
  trip_id : String
  stop_id : String
  departure_time : String
  date : String
  predicted_crowd_level : String
  confidence : ℚ
  historical_average : Option Nat
  features_used : List String
deriving DecidableEq, Repr

/-- A stored cache value: the result of `json.dumps` on a response, or a blob
on which `json.loads` raises (connectivity corruption, a foreign writer, ...).
`json.loads (json.dumps r)` recovers `r`, which `valid` captures. -/
inductive Blob where
  | valid (r : PredictionResponse)
  | garbage
deriving DecidableEq, Repr

/-- The key-value store behind the `redis` client: keys to blobs.  The TTL
passed to `SETEX` is not modelled (the model has no clock); expiry is outside
every claim proved here. -/
def CacheStore := List (String × Blob)
deriving DecidableEq

def storeLookup : CacheStore → String → Option Blob
  | [], _ => none
  | (k, v) :: rest, key => if k = key then some v else storeLookup rest key

def storeSet (store : CacheStore) (key : String) (v : Blob) : CacheStore :=
  (key, v) :: (store.filter fun p => decide (p.1 ≠ key))

/-- A class range `a-b` hit, with the bounds swapped when reversed, as in
redis `util.c`. -/
def rangeHit (a b c : Char) : Bool :=
  let lo := if a ≤ b then a else b
  let hi := if a ≤ b then b else a
  lo ≤ c && c ≤ hi

mutual

/-- Redis `KEYS` glob matching (`stringmatchlen` in redis `util.c`,
case-sensitive): `*` consumes an arbitrary run (realised by trying every
suffix of the subject), `?` one character, `[...]` a class with `^` negation,
`a-b` ranges and backslash escapes (an unclosed class consumes the rest of
the pattern), and a backslash escapes the next pattern character; everything
else is literal.  Redis matches bytes; the model matches characters, which
coincides on single-byte text and is exact everywhere the theorems apply. -/
def redisGlob : List Char → List Char → Bool
  | [], s => s.isEmpty
  | '*' :: ps, s => s.tails.any (fun t => redisGlob ps t)
  | '?' :: _, [] => false
  | '?' :: ps, _ :: cs => redisGlob ps cs
  | '[' :: _, [] => false
  | '[' :: '^' :: ps, c :: cs => redisClassRest ps c true false cs
  | '[' :: ps, c :: cs => redisClassRest ps c false false cs
  | '\\' :: _ :: _, [] => false
  | '\\' :: e :: ps, c :: cs => e == c && redisGlob ps cs
  | _ :: _, [] => false
  | p1 :: ps, c :: cs => p1 == c && redisGlob ps cs
termination_by p s => p.length
decreasing_by all_goals (simp_wf; try omega)

/-- The `[...]` class scan of redis `stringmatchlen`: `m` accumulates whether
the subject character hit a member, `neg` records a leading `^`, and at the
closing bracket (or at an unclosed end of pattern) the verdict gates the
match of the remaining pattern against the remaining subject. -/
def redisClassRest : List Char → Char → Bool → Bool → List Char → Bool
  | '\\' :: e :: rest, c, neg, m, cs => redisClassRest rest c neg (m || (e == c)) cs
  | ']' :: rest, _, neg, m, cs => (if neg then !m else m) && redisGlob rest cs
  | a :: '-' :: b :: rest, c, neg, m, cs => redisClassRest rest c neg (m || rangeHit a b c) cs
  | a :: rest, c, neg, m, cs => redisClassRest rest c neg (m || (a == c)) cs
  | [], _, neg, m, cs => (if neg then !m else m) && cs.isEmpty
termination_by l c neg m cs => l.length
decreasing_by all_goals (simp_wf; try omega)

end

/-- The redis glob metacharacters: inside an id they change what the derived
invalidation pattern matches. -/
def globMeta : List Char := ['*', '?', '[', '\\']

/-- The string `"prediction:" ++ trip ++ ":" ++ stop ++ ":"`, the shared stem of every cache key
and of the two-argument invalidation pattern. -/
def pred_key_pre (trip_id stop_id : String) : String :=
  "prediction:" ++ trip_id ++ ":" ++ stop_id ++ ":"

/-- The cache key `f"prediction:{trip_id}:{stop_id}:{departure_time}:{date}"`. -/
def pred_cache_key (trip_id stop_id departure_time date : String) : String :=
  pred_key_pre trip_id stop_id ++ departure_time ++ ":" ++ date

/-- Embeds `CacheManager.get_prediction`.  Here `up = false` models the redis client
raising (connection refused, timeout, ...): the `except` clause logs and
returns `None`.  A `garbage` blob models `json.loads` raising, handled by the
same clause. -/
def get_prediction (up : Bool) (store : CacheStore)
    (trip_id stop_id departure_time date : String) : Option PredictionResponse :=
  if up then
    match storeLookup store (pred_cache_key trip_id stop_id departure_time date) with
    | some (.valid r) => some r
    | some .garbage => none
    | none => none
  else none

/-- Embeds `CacheManager.set_prediction`: stores the serialized response under the
key with the configured TTL; a raising client is downgraded to `False` with
the store unchanged. -/
def set_prediction (up : Bool) (store : CacheStore)
    (trip_id stop_id departure_time date : String) (r : PredictionResponse) :
    Bool × CacheStore :=
  if up then
    (true, storeSet store (pred_cache_key trip_id stop_id departure_time date) (.valid r))
  else (false, store)

/-- Helper of `CacheManager.invalidate_predictions`: Python truthiness of the
optional string arguments. -/
def strTruthy : Option String → Bool
  | some s => s != ""
  | none => false

/-- The glob pattern `invalidate_predictions` builds from whichever of
trip/stop are truthy (Python truthiness: `None` and `""` are both falsy). -/
def invalidationPattern (trip_id stop_id : Option String) : String :=
  if strTruthy trip_id && strTruthy stop_id then
    pred_key_pre (trip_id.getD "") (stop_id.getD "") ++ "*"
  else if strTruthy trip_id then
    "prediction:" ++ trip_id.getD "" ++ ":*"
  else if strTruthy stop_id then
    "prediction:*:" ++ stop_id.getD "" ++ ":*"
  else "prediction:*"

/-- Embeds `CacheManager.invalidate_predictions`: deletes every key matching the
derived glob pattern; a raising client is swallowed, leaving the store as it
was. -/
def invalidate_predictions (up : Bool) (store : CacheStore)
    (trip_id stop_id : Option String) : CacheStore :=
  if up then
    store.filter fun p =>
      ! redisGlob (invalidationPattern trip_id stop_id).toList p.1.toList
  else store

/-! ## sklearn components, as the pipeline uses them -/

/-- The fitted state of `sklearn.preprocessing.LabelEncoder`: its
`classes_` vocabulary. An unfitted encoder is modelled with `[]`. -/
structure LabelEncoder where
  classes : List String
deriving DecidableEq, Repr

/-- Lexicographic comparison on the character sequences (the order
`np.unique` sorts string labels by). -/
def strLtChars : List Char → List Char → Bool
  | [], [] => false
  | [], _ :: _ => true
  | _ :: _, [] => false
  | a :: as, b :: bs => if a < b then true else if b < a then false else strLtChars as bs

def strLt (a b : String) : Bool := strLtChars a.toList b.toList

def insertSorted (x : String) : List String → List String
  | [] => [x]
  | y :: ys => if strLt x y then x :: y :: ys else if x = y then y :: ys else y :: insertSorted x ys

/-- Embeds `LabelEncoder.fit`: `classes_ = np.unique(y)` — the sorted distinct values. -/
def leFit (data : List String) : LabelEncoder :=
  ⟨data.foldl (fun acc z => insertSorted z acc) []⟩

def classIndex : List String → String → Nat
  | [], _ => 0
  | c :: cs, z => if z = c then 0 else classIndex cs z + 1

/-- Embeds `LabelEncoder.transform` on one value: its index among the fitted classes,
or the `ValueError` sklearn raises on a previously unseen label (`none`). -/
def leTransform (le : LabelEncoder) (z : String) : Option Nat :=
  if z ∈ le.classes then some (classIndex le.classes z) else none

/-- Embeds `LabelEncoder.fit_transform`: fit the vocabulary, then index the same
data against it. -/
def leFitTransform (data : List String) : LabelEncoder × List Nat :=
  let le := leFit data
  (le, data.map (fun z => classIndex le.classes z))

/-- One column's fitted `StandardScaler` parameters (`mean_` and `scale_`). -/
structure ScalerColParams where
  mean : ℚ
  scale : ℚ
deriving DecidableEq, Repr

/-- The scaler's fitted state; `none` models an unfitted scaler. -/
structure StandardScaler where
  params : Option (List ScalerColParams)
deriving DecidableEq, Repr

def listMean (l : List ℚ) : ℚ := l.sum / (l.length : ℚ)

/-- Embeds `StandardScaler.fit` per column: `mean_` exactly; `scale_` is the
library's square root of the column variance, which is not rational, so it is
abstracted as the `std` parameter — no claim depends on its numeric value,
only on both paths using the same stored value. -/
def scalerFit (std : List ℚ → ℚ) (cols : List (List ℚ)) : List ScalerColParams :=
  cols.map (fun c => ⟨listMean c, std c⟩)

/-- Embeds `StandardScaler.transform` of one raw value with one column's fitted
parameters: `(v - mean_) / scale_`. -/
def scalerTransformVal (p : ScalerColParams) (v : ℚ) : ℚ :=
  (v - p.mean) / p.scale

def scalerTransformRow (ps : List ScalerColParams) (row : List ℚ) : List ℚ :=
  (ps.zip row).map (fun pv => scalerTransformVal pv.1 pv.2)

/-- Embeds `StandardScaler.fit_transform`: fit on the matrix's columns, then
transform the same rows with the freshly fitted parameters. -/
def scalerFitTransform (std : List ℚ → ℚ) (rows : List (List ℚ)) :
    List ScalerColParams × List (List ℚ) :=
  let ncols := (rows.headD []).length
  let cols := (List.range ncols).map (fun j => rows.map (fun r => r.getD j 0))
  let ps := scalerFit std cols
  (ps, rows.map (scalerTransformRow ps))

/-- A random-forest classifier's behaviour on one feature row.  An unfitted
estimator raises `NotFittedError` from `predict`/`predict_proba`. -/
structure RFModel where
  predictRow : List ℚ → Except PyExc String
  predictProbaRow : List ℚ → Except PyExc (List ℚ)

/-- Embeds `RandomForestClassifier(n_estimators=100, random_state=42)` before any
`fit`. -/
def unfittedRF : RFModel :=
  { predictRow := fun _ => .error .notFitted
    predictProbaRow := fun _ => .error .notFitted }

/-- The two sklearn internals abstracted as explicit parameters: the
`scale_` (standard deviation) computation inside `StandardScaler.fit`, and the
seeded random-forest fit.  Both are deterministic in the library. -/
structure SkLib where
  std : List ℚ → ℚ
  fitRF : List (List ℚ) → List (Option String) → RFModel

def leastPopulatedMsg : String :=
  "The least populated class in y has only 1 member, which is too few. The minimum number of groups for any class cannot be less than 2."

def distinctClasses (y : List (Option String)) : List (Option String) :=
  y.foldl (fun acc c => if c ∈ acc then acc else acc ++ [c]) []

/-- The argument validation of
`train_test_split(..., test_size=0.2, random_state=42, stratify=y)`
(`StratifiedShuffleSplit`): raises when the least populated class has fewer
than 2 members, then when either partition is smaller than the number of
classes. -/
def stratifiedSplitCheck (y : List (Option String)) : Except PyExc Unit :=
  let nTest := (y.length + 4) / 5
  let nTrain := y.length - nTest
  let k := (distinctClasses y).length
  if y.any (fun c => y.count c < 2) then
    .error (.valueError leastPopulatedMsg)
  else if nTrain < k then
    .error (.valueError "The train_size should be greater or equal to the number of classes.")
  else if nTest < k then
    .error (.valueError "The test_size should be greater or equal to the number of classes.")
  else .ok ()

/-- The partition itself, fixed by `random_state=42`.  No claim depends on
which rows land in which partition, so the embedding uses a definite
partition with sklearn's sizes (`n_test = ceil(0.2 * n)`). -/
def splitTrainTest (rows : List (List ℚ)) (y : List (Option String)) :
    (List (List ℚ) × List (Option String)) × (List (List ℚ) × List (Option String)) :=
  let nTest := (rows.length + 4) / 5
  ((rows.drop nTest, y.drop nTest), (rows.take nTest, y.take nTest))

/-! ## The model lifecycle manager (app/ml_model.py) -/

/-- The literal `self.feature_columns` list from `CrowdPredictor.__init__`. -/
def featureColumnsInit : List String :=
  ["hour", "day_of_week", "month", "is_weekend", "is_holiday",
   "stop_sequence", "has_shelter", "has_washroom", "has_bike_rack",
   "has_bench", "zone_id", "route_type"]

/-- The `numerical_cols` list, the subset the scaler is fit on, in source order. -/
def numericalCols : List String :=
  ["hour", "day_of_week", "month", "stop_sequence", "route_type"]

/-- The Model Bundle: classifier, categorical encoder, numeric scaler,
feature ordering and trained flag. -/
structure CrowdPredictor where
  model : RFModel
  label_encoder : LabelEncoder
  scaler : StandardScaler
  feature_columns : List String
  is_trained : Bool

/-- Embeds `CrowdPredictor.__init__`: unfitted estimators, untrained flag. -/
def CrowdPredictor.init : CrowdPredictor :=
  { model := unfittedRF
    label_encoder := ⟨[]⟩
    scaler := ⟨none⟩
    feature_columns := featureColumnsInit
    is_trained := false }

/-- One row of the observations DataFrame handed to `train`: the eight
columns `train_model` builds, plus cell values for the two columns
(`route_id`, `stop_sequence`) that the pipeline's join and projection
reference.  Whether those two columns exist at all is a frame-level fact in
pandas, recorded by the flags on `ObsFrame`; the API caller never supplies
them. -/
structure ObsRow where
  trip_id : String
  stop_id : String
  observation_time : PyDatetime
  boarding_count : Nat
  alighting_count : Nat
  crowd_level : Option String
  weather_condition : Option String
  temperature : Option ℚ
  route_id : Option String := none
  stop_sequence : Option ℚ := none
deriving DecidableEq, Repr

structure ObsFrame where
  rows : List ObsRow
  hasRouteIdCol : Bool := false
  hasStopSequenceCol : Bool := false
deriving DecidableEq, Repr

/-- One row of the stops DataFrame as `train_model` builds it. -/
structure StopsRow where
  stop_id : String
  name : String
  latitude : ℚ
  longitude : ℚ
  zone_id : Option String
deriving DecidableEq, Repr

/-- One row of the routes DataFrame as `train_model` builds it. -/
structure RoutesRow where
  route_id : String
  long_name : String
  route_type : Int
deriving DecidableEq, Repr

structure AmenityRow where
  stop_id : String
  has_shelter : ℚ
  has_washroom : ℚ
  has_bike_rack : ℚ
  has_bench : ℚ
deriving DecidableEq, Repr

def b2q (b : Bool) : ℚ := if b then 1 else 0

/-- Embeds `CrowdPredictor._get_amenities_features`: four `np.random.choice` columns
drawn over the stops, one column after the other (success probabilities 0.3,
0.2, 0.4, 0.7 — only the fact of a fresh draw matters to the claims).
`rng i` is the i-th Bernoulli outcome taken from the hidden global numpy RNG,
made an explicit argument. -/
def get_amenities_features (rng : Nat → Bool) (stops : List StopsRow) : List AmenityRow :=
  let n := stops.length
  stops.enum.map fun si =>
    { stop_id := si.2.stop_id
      has_shelter := b2q (rng si.1)
      has_washroom := b2q (rng (n + si.1))
      has_bike_rack := b2q (rng (2 * n + si.1))
      has_bench := b2q (rng (3 * n + si.1)) }

/-- The training path's weekend flag:
`df['day_of_week'].isin([5, 6]).astype(int)`. -/
def train_is_weekend (t : PyDatetime) : ℚ :=
  if pdDayofweek t ∈ [5, 6] then 1 else 0

/-- The inference path's weekend flag: `1 if dt.weekday() in [5, 6] else 0`. -/
def predict_is_weekend (t : PyDatetime) : ℚ :=
  if pyWeekday t ∈ [5, 6] then 1 else 0

/-- One prepared row after `prepare_features`' joins, time extraction and
fills.  `stop_sequence` keeps its possibly-missing cell value; presence of
the column itself is the frame-level flag. -/
structure FeatRow where
  hour : ℚ
  day_of_week : ℚ
  month : ℚ
  is_weekend : ℚ
  is_holiday : ℚ
  stop_sequence : Option ℚ
  has_shelter : ℚ
  has_washroom : ℚ
  has_bike_rack : ℚ
  has_bench : ℚ
  zone_id : String
  route_type : ℚ
  crowd_level : Option String
deriving DecidableEq, Repr

structure PreparedFrame where
  rows : List FeatRow
  hasStopSequenceCol : Bool
deriving DecidableEq, Repr

/-- Embeds `CrowdPredictor.prepare_features`: left-join observations to stops on
`stop_id` and to routes on `route_id` (pandas raises `KeyError: 'route_id'`
when the left frame has no such column), derive the time features, set the
holiday placeholder to 0, join the freshly drawn amenity table, and fill the
missing values (`zone_id` → `"unknown"`, `route_type` → 0, amenities → 0). -/
def prepare_features (rng : Nat → Bool) (observations : ObsFrame)
    (stops : List StopsRow) (routes : List RoutesRow) :
    Except PyExc PreparedFrame :=
  if observations.hasRouteIdCol then
    let amen := get_amenities_features rng stops
    .ok
      { rows := observations.rows.map fun o =>
          let st := stops.find? (fun s => s.stop_id == o.stop_id)
          let rt := o.route_id.bind (fun rid => routes.find? (fun r => r.route_id == rid))
          let am := amen.find? (fun a => a.stop_id == o.stop_id)
          { hour := (o.observation_time.hour : ℚ)
            day_of_week := (pdDayofweek o.observation_time : ℚ)
            month := (o.observation_time.month : ℚ)
            is_weekend := train_is_weekend o.observation_time
            is_holiday := 0
            stop_sequence := o.stop_sequence
            has_shelter := (am.map (·.has_shelter)).getD 0
            has_washroom := (am.map (·.has_washroom)).getD 0
            has_bike_rack := (am.map (·.has_bike_rack)).getD 0
            has_bench := (am.map (·.has_bench)).getD 0
            zone_id := (st.bind (·.zone_id)).getD "unknown"
            route_type := (rt.map (fun r => (r.route_type : ℚ))).getD 0
            crowd_level := o.crowd_level }
        hasStopSequenceCol := observations.hasStopSequenceCol }
  else .error (.keyError "route_id")

/-- What a successful `CrowdPredictor.train` returns (the classification
report dict is a pure function of the same predictions and adds nothing the
claims touch). -/
structure TrainOut where
  accuracy : ℚ
deriving Repr

/-- Embeds `sklearn.metrics.accuracy_score`. -/
def accuracy_score (truth : List (Option String)) (preds : List String) : ℚ :=
  if truth.length = 0 then 0
  else ((truth.zip preds).countP (fun p => p.1 == some p.2) : ℚ) / (truth.length : ℚ)

/-- Embeds `CrowdPredictor.train`.  Returns the outcome *and* the predictor that is
in memory after the call: the source fits `self.label_encoder` and
`self.scaler` in place (`fit_transform` on the shared objects) before the
stratified split runs, so the returned state after a failure carries exactly
the mutations already performed, in source order. -/
def CrowdPredictor.train (lib : SkLib) (rng : Nat → Bool) (b : CrowdPredictor)
    (observations : ObsFrame) (stops : List StopsRow) (routes : List RoutesRow) :
    Except PyExc TrainOut × CrowdPredictor :=
  match prepare_features rng observations stops routes with
  | .error e => (.error e, b)
  | .ok prep =>
    -- X = df[self.feature_columns]: KeyError when the frame never had a
    -- stop_sequence column
    if prep.hasStopSequenceCol = false then
      (.error (.keyError "stop_sequence"), b)
    else
      -- X['zone_id'] = self.label_encoder.fit_transform(X['zone_id']):
      -- refits the shared encoder in place
      let zones := prep.rows.map (·.zone_id)
      let fitted := leFitTransform zones
      let b1 : CrowdPredictor := { b with label_encoder := fitted.1 }
      -- X[numerical_cols] = self.scaler.fit_transform(X[numerical_cols]):
      -- sklearn's check_array rejects NaN cells, then the shared scaler is
      -- refit in place
      let numRaw : List (List (Option ℚ)) := prep.rows.map fun r =>
        [some r.hour, some r.day_of_week, some r.month, r.stop_sequence, some r.route_type]
      if numRaw.any (fun row => row.any (fun c => c.isNone)) then
        (.error (.valueError "Input contains NaN."), b1)
      else
        let numRows : List (List ℚ) := numRaw.map (fun row => row.map (fun c => c.getD 0))
        let st := scalerFitTransform lib.std numRows
        let b2 : CrowdPredictor := { b1 with scaler := ⟨some st.1⟩ }
        let y := prep.rows.map (·.crowd_level)
        match stratifiedSplitCheck y with
        | .error e => (.error e, b2)
        | .ok _ =>
          -- X's rows in feature_columns order: scaled numericals, raw flag
          -- and amenity columns, the raw encoded zone index
          let xRows : List (List ℚ) :=
            ((prep.rows.zip st.2).zip fitted.2).map fun rz =>
              [rz.1.2.getD 0 0, rz.1.2.getD 1 0, rz.1.2.getD 2 0,
               rz.1.1.is_weekend, rz.1.1.is_holiday, rz.1.2.getD 3 0,
               rz.1.1.has_shelter, rz.1.1.has_washroom, rz.1.1.has_bike_rack,
               rz.1.1.has_bench, (rz.2 : ℚ), rz.1.2.getD 4 0]
          let split := splitTrainTest xRows y
          let m := lib.fitRF split.1.1 split.1.2
          let b3 : CrowdPredictor := { b2 with model := m }
          match split.2.1.mapM m.predictRow with
          | .error e => (.error e, b3)
          | .ok preds =>
            let acc := accuracy_score split.2.2 preds
            let b4 : CrowdPredictor := { b3 with is_trained := true }
            (.ok { accuracy := acc }, b4)

/-- Python `x or d` on an optional string `x`: both `None` and the falsy
empty string fall back to `d`. -/
def pyOr (x : Option String) (d : String) : String :=
  match x with
  | some s => if s = "" then d else s
  | none => d

/-- The key order of the feature dict literal built inside
`CrowdPredictor.predict` (Python dicts preserve insertion order, and
`pd.DataFrame([features])` keeps it as the column order). -/
def predict_feature_names : List String :=
  ["hour", "day_of_week", "month", "is_weekend", "is_holiday",
   "stop_sequence", "has_shelter", "has_washroom", "has_bike_rack",
   "has_bench", "zone_id", "route_type"]

/-- Embeds `CrowdPredictor.predict`: precondition check, datetime parse, context
lookups, one feature vector by the same derivation as training (with the
placeholder defaults for stop_sequence and amenities), the *already fitted*
encoder and scaler applied via `transform`, then the classifier.  Pure in the
bundle: nothing is refit. -/
def CrowdPredictor.predict (b : CrowdPredictor)
    (trip_id stop_id departure_time date : String) (db : Db) :
    Except PyExc (String × ℚ × List String) :=
  if b.is_trained = false then
    .error (.valueError "Model must be trained before making predictions")
  else
    match strptime_ymd_hms date departure_time with
    | none => .error (.valueError "time data does not match format %Y-%m-%d %H:%M:%S")
    | some dt =>
      let stop? := db.stops.find? (fun s => s.id == stop_id)
      let trip? := db.trips.find? (fun t => t.id == trip_id)
      match stop?, trip? with
      | some stop, some trip =>
        let route? := db.routes.find? (fun r => r.id == trip.route_id)
        -- stop.zone_id or 'unknown': Python truthiness, so an empty-string
        -- zone also falls back (unlike the training path's fillna, which
        -- replaces only nulls)
        let zone := pyOr stop.zone_id "unknown"
        let routeType : ℚ := (route?.map (fun r => (r.route_type : ℚ))).getD 0
        -- X['zone_id'] = self.label_encoder.transform(X['zone_id'])
        match leTransform b.label_encoder zone with
        | none => .error (.valueError "y contains previously unseen labels")
        | some zIdx =>
          -- X[numerical_cols] = self.scaler.transform(X[numerical_cols])
          match b.scaler.params with
          | none => .error .notFitted
          | some ps =>
            let numScaled := scalerTransformRow ps
              [(dt.hour : ℚ), (pyWeekday dt : ℚ), (dt.month : ℚ), 1, routeType]
            let x : List ℚ :=
              [numScaled.getD 0 0, numScaled.getD 1 0, numScaled.getD 2 0,
               predict_is_weekend dt, 0, numScaled.getD 3 0,
               0, 0, 0, 0, (zIdx : ℚ), numScaled.getD 4 0]
            match b.model.predictRow x with
            | .error e => .error e
            | .ok label =>
              match b.model.predictProbaRow x with
              | .error e => .error e
              | .ok [] => .error (.valueError "max() arg is an empty sequence")
              | .ok (p :: rest) => .ok (label, rest.foldl max p, b.feature_columns)
      | _, _ => .error (.valueError "Stop or trip not found")

/-! ## The boundary layer (app/api.py) -/

/-- The process-wide state the routes touch: the model singleton, the redis
store (plus whether the client can reach it), and the database. -/
structure AppState where
  bundle : CrowdPredictor
  cache : CacheStore
  cacheUp : Bool
  db : Db

structure PredictionRequest where
  trip_id : String
  stop_id : String
  departure_time : String
  date : String
deriving DecidableEq, Repr

/-- The observation rows matching a trip/stop pair. -/
def matching_obs (db : Db) (trip_id stop_id : String) : List Observation :=
  db.observations.filter (fun o => o.trip_id == trip_id && o.stop_id == stop_id)

/-- Embeds `_get_historical_average`: the mean of `boarding_count` over the matching
observations, truncated by `int(...)` (floor, the counts being nonnegative;
exact rationals stand in for the float division), or `None` when no rows
match. -/
def _get_historical_average (db : Db) (trip_id stop_id : String) : Option Nat :=
  let r := matching_obs db trip_id stop_id
  if r.isEmpty then none
  else some ((r.map (·.boarding_count)).sum / r.length)

/-- The cache-miss continuation of `predict_crowd`: the 404 existence checks,
then the `try` block around the model call, the historical average, the
write-back, and the two `except` clauses (`ValueError` → 400 with the
exception's message, anything else → 500 "Prediction failed"). -/
def predict_crowd_miss (req : PredictionRequest) (s : AppState) :
    HttpResult PredictionResponse × AppState :=
  match s.db.trips.find? (fun t => t.id == req.trip_id) with
  | none => (.httpError 404 "Trip not found", s)
  | some _ =>
    match s.db.stops.find? (fun st => st.id == req.stop_id) with
    | none => (.httpError 404 "Stop not found", s)
    | some _ =>
      match s.bundle.predict req.trip_id req.stop_id req.departure_time req.date s.db with
      | .error (.valueError m) => (.httpError 400 m, s)
      | .error _ => (.httpError 500 "Prediction failed", s)
      | .ok (level, confidence, feats) =>
        let hist := _get_historical_average s.db req.trip_id req.stop_id
        let resp : PredictionResponse :=
          { trip_id := req.trip_id
            stop_id := req.stop_id
            departure_time := req.departure_time
            date := req.date
            predicted_crowd_level := level
            confidence := confidence
            historical_average := hist
            features_used := feats }
        let setRes := set_prediction s.cacheUp s.cache
          req.trip_id req.stop_id req.departure_time req.date resp
        (.ok resp, { s with cache := setRes.2 })

/-- Embeds `predict_crowd`: probe the cache first, otherwise run the miss path. -/
def predict_crowd (req : PredictionRequest) (s : AppState) :
    HttpResult PredictionResponse × AppState :=
  match get_prediction s.cacheUp s.cache
      req.trip_id req.stop_id req.departure_time req.date with
  | some cached => (.ok cached, s)
  | none => predict_crowd_miss req s

/-- Embeds `create_observation`: 404 checks, insert and commit the row, then
synchronously invalidate the cached predictions for that trip/stop before
returning the stored row. -/
def create_observation (o : Observation) (s : AppState) :
    HttpResult Observation × AppState :=
  match s.db.trips.find? (fun t => t.id == o.trip_id) with
  | none => (.httpError 404 "Trip not found", s)
  | some _ =>
    match s.db.stops.find? (fun st => st.id == o.stop_id) with
    | none => (.httpError 404 "Stop not found", s)
    | some _ =>
      let db' : Db := { s.db with observations := s.db.observations ++ [o] }
      let cache' := invalidate_predictions s.cacheUp s.cache (some o.trip_id) (some o.stop_id)
      (.ok o, { s with db := db', cache := cache' })

def obsFrameOfDb (obs : List Observation) : ObsFrame :=
  { rows := obs.map fun o =>
      { trip_id := o.trip_id
        stop_id := o.stop_id
        observation_time := o.observation_time
        boarding_count := o.boarding_count
        alighting_count := o.alighting_count
        crowd_level := o.crowd_level
        weather_condition := o.weather_condition
        temperature := o.temperature }
    hasRouteIdCol := false
    hasStopSequenceCol := false }

def stopsFrameOfDb (stops : List StopRec) : List StopsRow :=
  stops.map fun st =>
    { stop_id := st.id
      name := st.name
      latitude := st.latitude
      longitude := st.longitude
      zone_id := st.zone_id }

def routesFrameOfDb (routes : List RouteRec) : List RoutesRow :=
  routes.map fun r =>
    { route_id := r.id
      long_name := r.long_name
      route_type := r.route_type }

structure TrainResponse where
  message : String
  accuracy : ℚ
  observations_used : Nat
  model_saved : Bool
deriving Repr

/-- Embeds `train_model`: everything, including the explicit
`HTTPException(400, "No observations found for training")` for an empty
table, runs inside one `try` whose `except Exception` clause re-raises any
exception as `HTTPException(500, "Training failed: " + str(e))` —
`HTTPException` being an `Exception` subclass, the 400 is swallowed too.  The
`save_model` call writes the pickle to the configured path (no state in this
model).  The bundle left in memory by `CrowdPredictor.train` persists whether
or not training succeeded. -/
def train_model (lib : SkLib) (rng : Nat → Bool) (s : AppState) :
    HttpResult TrainResponse × AppState :=
  if s.db.observations.isEmpty then
    (.httpError 500
      ("Training failed: " ++ PyExc.str (.httpExc 400 "No observations found for training")), s)
  else
    let r := CrowdPredictor.train lib rng s.bundle
      (obsFrameOfDb s.db.observations)
      (stopsFrameOfDb s.db.stops)
      (routesFrameOfDb s.db.routes)
    match r.1 with
    | .error e =>
      (.httpError 500 ("Training failed: " ++ PyExc.str e), { s with bundle := r.2 })
    | .ok out =>
      (.ok { message := "Model training completed"
             accuracy := out.accuracy
             observations_used := s.db.observations.length
             model_saved := true },
       { s with bundle := r.2 })

/-! ## Concrete instances used by the claim theorems -/

/-- A concrete instantiation of the abstracted sklearn internals (their
numeric content is irrelevant to the theorems below). -/
def skLibConc : SkLib := { std := fun _ => 1, fitRF := fun _ _ => unfittedRF }

/-- One numpy RNG outcome stream: all draws 0. -/
def rngZero : Nat → Bool := fun _ => false

/-- Another numpy RNG outcome stream: all draws 1. -/
def rngOne : Nat → Bool := fun _ => true

/-- An observation row carrying the `route_id` and `stop_sequence` columns
(the shape under which `CrowdPredictor.train` gets past its joins). -/
def c1ObsRow (lvl : String) : ObsRow :=
  { trip_id := "t1", stop_id := "s1", observation_time := ⟨2024, 1, 15, 8, 0, 0⟩,
    boarding_count := 10, alighting_count := 2, crowd_level := some lvl,
    weather_condition := none, temperature := none,
    route_id := some "r1", stop_sequence := some 1 }

/-- Three labelled observations whose crowd levels are two `"light"` and one
`"packed"`: the `"packed"` class has a single member, so the stratified split
raises. -/
def c1Frame : ObsFrame :=
  { rows := [c1ObsRow "light", c1ObsRow "light", c1ObsRow "packed"],
    hasRouteIdCol := true, hasStopSequenceCol := true }

def c1Stops : List StopsRow := [⟨"s1", "Main St", 0, 0, some "z1"⟩]

def c1Routes : List RoutesRow := [⟨"r1", "Main Line", 1⟩]

/-- The training run on the input above, started from a freshly constructed
predictor. -/
def c1Run : Except PyExc TrainOut × CrowdPredictor :=
  CrowdPredictor.train skLibConc rngZero CrowdPredictor.init c1Frame c1Stops c1Routes

/-- C1.  The claim says a training failure after feature preparation begins
leaves the Model Bundle exactly as before the call.  The code violates it:
`train` refits the shared `label_encoder` and `scaler` in place before the
stratified split runs, so on the input whose least populated crowd-level
class has one member the split raises, the call returns that error, and the
bundle is left with a freshly fitted encoder and scaler next to the old
classifier and the old trained flag — a partial update. -/
theorem claim1_split_failure_leaves_partial_bundle :
    c1Run.1 = .error (.valueError leastPopulatedMsg) ∧
    c1Run.2.label_encoder ≠ CrowdPredictor.init.label_encoder ∧
    c1Run.2.scaler ≠ CrowdPredictor.init.scaler ∧
    c1Run.2.model = CrowdPredictor.init.model ∧
    c1Run.2.is_trained = CrowdPredictor.init.is_trained := by
  refine ⟨rfl, ?_, ?_, rfl, rfl⟩
  · intro h
    have h2 : c1Run.2.label_encoder.classes = CrowdPredictor.init.label_encoder.classes := by
      rw [h]
    rw [show c1Run.2.label_encoder.classes = ["z1"] from rfl] at h2
    simp [CrowdPredictor.init] at h2
  · intro h
    have h2 : c1Run.2.scaler.params.isSome = CrowdPredictor.init.scaler.params.isSome := by
      rw [h]
    rw [show c1Run.2.scaler.params.isSome = true from rfl] at h2
    simp [CrowdPredictor.init] at h2

/-- The application state with an empty observations table. -/
def c2State : AppState :=
  { bundle := CrowdPredictor.init, cache := [], cacheUp := true,
    db := { routes := [], trips := [], stops := [], observations := [] } }

/-- C2.  The claim says training with zero observations fails as a
400-equivalent naming the missing precondition.  The code raises that 400
`HTTPException` inside the route's `try`, whose `except Exception` clause
catches it (an `HTTPException` is an `Exception`) and re-raises it as a 500
whose detail wraps the original message — the client sees an
InternalFailure, not a PreconditionFailed. -/
theorem claim2_zero_observations_surfaces_500 :
    (train_model skLibConc rngZero c2State).1 =
      .httpError 500 "Training failed: 400: No observations found for training" := rfl

def c4Obs : ObsFrame :=
  { rows := [c1ObsRow "light"], hasRouteIdCol := true, hasStopSequenceCol := true }

/-- C4.  The claim says that when true amenity records are unavailable the
four amenity flags are filled with 0, never a random draw, making feature
preparation deterministic over fixed tables.  The code instead draws the
flags from `np.random.choice` on every run: two runs over identical
observation, stop and route tables whose global-RNG outcomes differ produce
different feature tables, and the drawn flag is 1, not the claimed 0 fill. -/
theorem claim4_amenities_random_not_zero :
    prepare_features rngOne c4Obs c1Stops c1Routes ≠
      prepare_features rngZero c4Obs c1Stops c1Routes ∧
    (get_amenities_features rngOne c1Stops).map (·.has_shelter) = [1] ∧
    (get_amenities_features rngZero c1Stops).map (·.has_shelter) = [0] := by
  refine ⟨?_, rfl, rfl⟩
  intro h
  have h2 : (prepare_features rngOne c4Obs c1Stops c1Routes).toOption.map
        (fun p => p.rows.map (·.has_shelter)) =
      (prepare_features rngZero c4Obs c1Stops c1Routes).toOption.map
        (fun p => p.rows.map (·.has_shelter)) := by
    rw [h]
  rw [show (prepare_features rngOne c4Obs c1Stops c1Routes).toOption.map
        (fun p => p.rows.map (·.has_shelter)) = some [1] from rfl] at h2
  rw [show (prepare_features rngZero c4Obs c1Stops c1Routes).toOption.map
        (fun p => p.rows.map (·.has_shelter)) = some [0] from rfl] at h2
  simp at h2

/-! ## Invalidation lemmas -/

lemma star_matches_any (s : List Char) : redisGlob ['*'] s = true := by
  have h : ([] : List Char) ∈ s.tails := by simp
  rw [show redisGlob ['*'] s = s.tails.any (fun t => redisGlob [] t) from by
    simp [redisGlob]]
  rw [List.any_eq_true]
  exact ⟨[], h, by simp [redisGlob]⟩

lemma redisGlob_cons_lit (c : Char) (hc : c ∉ globMeta) (ps ss : List Char) :
    redisGlob (c :: ps) (c :: ss) = redisGlob ps ss := by
  simp only [globMeta, List.mem_cons, List.mem_singleton, not_or] at hc
  obtain ⟨h1, h2, h3, h4⟩ := hc
  simp [redisGlob, h1, h2, h3, h4]

lemma redisGlob_escape_mismatch (e c : Char) (hec : ¬ e = c) (ps ss : List Char) :
    redisGlob ('\\' :: e :: ps) (c :: ss) = false := by
  simp [redisGlob, hec]

lemma redisGlob_append_star (pre rest : List Char) (h : ∀ c ∈ pre, c ∉ globMeta) :
    redisGlob (pre ++ ['*']) (pre ++ rest) = true := by
  induction pre with
  | nil => simpa using star_matches_any rest
  | cons c cs ih =>
    have hc := h c (List.mem_cons_self c cs)
    have hcs : ∀ x ∈ cs, x ∉ globMeta := fun x hx => h x (List.mem_cons_of_mem c hx)
    simpa [redisGlob_cons_lit c hc] using ih hcs

lemma redisGlob_prefix_escape_mismatch (lit : List Char) (h : ∀ c ∈ lit, c ∉ globMeta)
    (e c : Char) (hec : ¬ e = c) (ps ss : List Char) :
    redisGlob (lit ++ '\\' :: e :: ps) (lit ++ c :: ss) = false := by
  induction lit with
  | nil => simpa using redisGlob_escape_mismatch e c hec ps ss
  | cons a as ih =>
    have ha := h a (List.mem_cons_self a as)
    have has : ∀ x ∈ as, x ∉ globMeta := fun x hx => h x (List.mem_cons_of_mem a hx)
    simpa [redisGlob_cons_lit a ha] using ih has

lemma storeLookup_filter_matching (pat : List Char) (key : String)
    (h : redisGlob pat key.toList = true) (store : CacheStore) :
    storeLookup (store.filter fun p => ! redisGlob pat p.1.toList) key = none := by
  induction store with
  | nil => rfl
  | cons kv rest ih =>
    by_cases hk : redisGlob pat kv.1.toList = true
    · have hk' : redisGlob pat kv.1.data = true := hk
      simpa [List.filter_cons, hk'] using ih
    · have hk' : ¬ redisGlob pat kv.1.data = true := hk
      have hne : ¬ kv.1 = key := fun e => hk (by rw [e]; exact h)
      simpa [List.filter_cons, hk', storeLookup, hne] using ih

lemma storeLookup_filter_not_matching (pat : List Char) (key : String)
    (h : redisGlob pat key.toList = false) (store : CacheStore) :
    storeLookup (store.filter fun p => ! redisGlob pat p.1.toList) key =
      storeLookup store key := by
  induction store with
  | nil => rfl
  | cons kv rest ih =>
    have ih' : storeLookup (List.filter (fun p => ! redisGlob pat p.1.data) rest) key
        = storeLookup rest key := ih
    have h' : redisGlob pat key.data = false := h
    by_cases hke : kv.1 = key
    · have hk' : redisGlob pat kv.1.data = false := by rw [hke]; exact h'
      simp [List.filter_cons, hk', storeLookup, hke, h', ih']
    · by_cases hk : redisGlob pat kv.1.data = true
      · simp [List.filter_cons, hk, storeLookup, hke, ih']
      · simp [List.filter_cons, hk, storeLookup, hke, ih']

lemma toList_append_str (a b : String) : (a ++ b).toList = a.toList ++ b.toList := rfl

lemma meta_free_pre (t s : String) (ht : ∀ c ∈ t.toList, c ∉ globMeta)
    (hs : ∀ c ∈ s.toList, c ∉ globMeta) :
    ∀ c ∈ (pred_key_pre t s).toList, c ∉ globMeta := by
  have hp : ∀ c ∈ ("prediction:".toList), c ∉ globMeta := by decide
  have hcol : ∀ c ∈ (":".toList), c ∉ globMeta := by decide
  intro c hc
  rw [pred_key_pre] at hc
  simp only [toList_append_str, List.mem_append] at hc
  rcases hc with ((((h | h) | h) | h) | h)
  · exact hp c h
  · exact ht c h
  · exact hcol c h
  · exact hs c h
  · exact hcol c h

/-- After invalidating with both a trip and a stop whose ids are nonempty and
free of glob metacharacters, no cache key for that pair survives. -/
lemma invalidate_kills_pair (store : CacheStore) (t s dep date : String)
    (ht1 : t ≠ "") (hs1 : s ≠ "")
    (ht2 : ∀ c ∈ t.toList, c ∉ globMeta) (hs2 : ∀ c ∈ s.toList, c ∉ globMeta) :
    storeLookup (invalidate_predictions true store (some t) (some s))
      (pred_cache_key t s dep date) = none := by
  have hpat : redisGlob ((pred_key_pre t s ++ "*").toList)
      ((pred_cache_key t s dep date).toList) = true := by
    have h1 : (pred_key_pre t s ++ "*").toList = (pred_key_pre t s).toList ++ ['*'] := rfl
    have h2 : (pred_cache_key t s dep date).toList =
        (pred_key_pre t s).toList ++ (dep.toList ++ ":".toList ++ date.toList) := by
      simp [pred_cache_key, toList_append_str, List.append_assoc]
    rw [h1, h2]
    exact redisGlob_append_star _ _ (meta_free_pre t s ht2 hs2)
  have htt : strTruthy (some t) = true := by simp [strTruthy, ht1]
  have hst : strTruthy (some s) = true := by simp [strTruthy, hs1]
  have hpat2 : invalidationPattern (some t) (some s) = pred_key_pre t s ++ "*" := by
    simp [invalidationPattern, htt, hst]
  unfold invalidate_predictions
  rw [if_pos rfl, hpat2]
  exact storeLookup_filter_matching _ _ hpat store

/-- C6, as amended.  Recording an observation for a trip/stop pair whose ids
are nonempty and free of the redis glob metacharacters `*`, `?`, `[` and the
backslash returns the stored row and synchronously deletes every cached
prediction keyed (trip, stop, any time, any date) before the write's
response is returned: in the state the write hands back, a predict for that
pair misses the cache and recomputes through the miss path instead of
returning the previously cached value.  The metacharacter restriction is
forced by `claim6_counterexample` (a backslash in the id makes the derived
pattern miss the pair's own keys); the nonempty and reachable-cache
restrictions come with the key scheme's documented constraint and the C8
swallow-errors rule. -/
theorem claim6_write_invalidates_pair (o : Observation) (s : AppState)
    (hup : s.cacheUp = true)
    (tr : TripRec) (htrip : s.db.trips.find? (fun t => t.id == o.trip_id) = some tr)
    (st : StopRec) (hstop : s.db.stops.find? (fun x => x.id == o.stop_id) = some st)
    (ht1 : o.trip_id ≠ "") (hs1 : o.stop_id ≠ "")
    (ht2 : ∀ c ∈ o.trip_id.toList, c ∉ globMeta)
    (hs2 : ∀ c ∈ o.stop_id.toList, c ∉ globMeta) :
    (create_observation o s).1 = .ok o ∧
    ∀ dep date,
      get_prediction (create_observation o s).2.cacheUp (create_observation o s).2.cache
        o.trip_id o.stop_id dep date = none ∧
      predict_crowd ⟨o.trip_id, o.stop_id, dep, date⟩ (create_observation o s).2 =
        predict_crowd_miss ⟨o.trip_id, o.stop_id, dep, date⟩ (create_observation o s).2 := by
  have hc : (create_observation o s).2.cache =
      invalidate_predictions s.cacheUp s.cache (some o.trip_id) (some o.stop_id) := by
    simp [create_observation, htrip, hstop]
  have hcu : (create_observation o s).2.cacheUp = s.cacheUp := by
    simp [create_observation, htrip, hstop]
  have hmiss : ∀ dep date,
      get_prediction (create_observation o s).2.cacheUp (create_observation o s).2.cache
        o.trip_id o.stop_id dep date = none := by
    intro dep date
    rw [hc, hcu, hup]
    have hkill := invalidate_kills_pair s.cache o.trip_id o.stop_id dep date ht1 hs1 ht2 hs2
    simp [get_prediction, hup, hkill]
  refine ⟨by simp [create_observation, htrip, hstop], fun dep date => ⟨hmiss dep date, ?_⟩⟩
  have h := hmiss dep date
  simp only [predict_crowd]
  rw [h]

/-! ## Shared concrete fixtures for the witnesses -/

def witTrip : TripRec := ⟨"t1", "r1", "svc1"⟩

def witRoute : RouteRec := ⟨"r1", "Main Line", 2⟩

def witStop : StopRec := ⟨"s1", "Main St", 0, 0, some "z1"⟩

def witDb : Db :=
  { routes := [witRoute], trips := [witTrip], stops := [witStop], observations := [] }

def witReq : PredictionRequest := ⟨"t1", "s1", "08:00:00", "2024-01-15"⟩

def witResp : PredictionResponse :=
  { trip_id := "t1", stop_id := "s1", departure_time := "08:00:00", date := "2024-01-15",
    predicted_crowd_level := "light", confidence := 1, historical_average := none,
    features_used := featureColumnsInit }

def c6State : AppState :=
  { bundle := CrowdPredictor.init,
    cache := [(pred_cache_key "t1" "s1" "08:00:00" "2024-01-15", .valid witResp)],
    cacheUp := true, db := witDb }

def c6Obs : Observation :=
  { id := 1, trip_id := "t1", stop_id := "s1", observation_time := ⟨2024, 1, 15, 8, 0, 0⟩,
    boarding_count := 5, alighting_count := 1, crowd_level := some "light",
    weather_condition := none, temperature := none, notes := none }

/-- Witness for C6: on a concrete state whose cache holds a prediction for
`("t1", "s1", "08:00:00", "2024-01-15")`, recording an observation for that
trip/stop leaves a cache on which the same lookup misses. -/
theorem claim6_witness :
    get_prediction (create_observation c6Obs c6State).2.cacheUp
      (create_observation c6Obs c6State).2.cache "t1" "s1" "08:00:00" "2024-01-15" = none :=
  ((claim6_write_invalidates_pair c6Obs c6State rfl witTrip rfl witStop rfl
      (by decide) (by decide) (by decide) (by decide)).2 "08:00:00" "2024-01-15").1

def c6cTrip : TripRec := ⟨"a\\b", "r1", "svc1"⟩

def c6cDb : Db :=
  { routes := [witRoute], trips := [c6cTrip], stops := [witStop], observations := [] }

def c6cKey : String := pred_cache_key "a\\b" "s1" "08:00:00" "2024-01-15"

def c6cState : AppState :=
  { bundle := CrowdPredictor.init, cache := [(c6cKey, .valid witResp)],
    cacheUp := true, db := c6cDb }

def c6cObs : Observation :=
  { id := 1, trip_id := "a\\b", stop_id := "s1", observation_time := ⟨2024, 1, 15, 8, 0, 0⟩,
    boarding_count := 5, alighting_count := 1, crowd_level := some "light",
    weather_condition := none, temperature := none, notes := none }

/-- Counterexample to C6 as frozen: for the trip id `a\b` — a backslash, an
id the claim does not exclude — the observation write succeeds, yet the
derived invalidation pattern `prediction:a\b:s1:*` fails to match the pair's
own key, because the backslash escapes the following character in redis
globbing.  The cached entry survives the write, and the very next predict
for the pair returns the previously cached value instead of recomputing. -/
theorem claim6_counterexample :
    (create_observation c6cObs c6cState).1 = .ok c6cObs ∧
    (predict_crowd ⟨"a\\b", "s1", "08:00:00", "2024-01-15"⟩
        (create_observation c6cObs c6cState).2).1 = .ok witResp := by
  constructor
  · rfl
  · have hglob : redisGlob ((invalidationPattern (some "a\\b") (some "s1")).toList)
        (c6cKey.toList) = false := by
      have hd : (invalidationPattern (some "a\\b") (some "s1")).toList =
          "prediction:a".toList ++ '\\' :: 'b' :: (":s1:*".toList) := by decide
      have hk : c6cKey.toList =
          "prediction:a".toList ++ '\\' :: ("b:s1:08:00:00:2024-01-15".toList) := by decide
      rw [hd, hk]
      exact redisGlob_prefix_escape_mismatch "prediction:a".toList (by decide) 'b' '\\'
        (by decide) _ _
    have hc2 : (create_observation c6cObs c6cState).2.cache =
        invalidate_predictions true [(c6cKey, .valid witResp)] (some "a\\b") (some "s1") := rfl
    have hlook : storeLookup ((create_observation c6cObs c6cState).2.cache) c6cKey
        = some (.valid witResp) := by
      rw [hc2]
      unfold invalidate_predictions
      rw [if_pos rfl]
      rw [storeLookup_filter_not_matching _ _ hglob]
      simp [storeLookup]
    have hget : get_prediction ((create_observation c6cObs c6cState).2.cacheUp)
        ((create_observation c6cObs c6cState).2.cache)
        "a\\b" "s1" "08:00:00" "2024-01-15" = some witResp := by
      rw [show (create_observation c6cObs c6cState).2.cacheUp = true from rfl]
      simp only [get_prediction, if_true]
      rw [show pred_cache_key "a\\b" "s1" "08:00:00" "2024-01-15" = c6cKey from rfl]
      rw [hlook]
    simp only [predict_crowd]
    rw [hget]

/-- C5.  A predict call made while the bundle is untrained fails with the
"model not ready" precondition error surfaced as a 400 (the route's
`except ValueError` clause), and an untrained state can never surface a
predict call as a 500 InternalFailure: every outcome is a cache hit, a 404,
or the 400 precondition failure. -/
theorem claim5_untrained_predict_400 (req : PredictionRequest) (s : AppState)
    (hun : s.bundle.is_trained = false)
    (hmiss : get_prediction s.cacheUp s.cache req.trip_id req.stop_id
      req.departure_time req.date = none)
    (tr : TripRec) (htrip : s.db.trips.find? (fun t => t.id == req.trip_id) = some tr)
    (st : StopRec) (hstop : s.db.stops.find? (fun x => x.id == req.stop_id) = some st) :
    (predict_crowd req s).1 =
      .httpError 400 "Model must be trained before making predictions" ∧
    ∀ (req' : PredictionRequest) (s' : AppState), s'.bundle.is_trained = false →
      ∀ d, (predict_crowd req' s').1 ≠ .httpError 500 d := by
  constructor
  · simp [predict_crowd, hmiss, predict_crowd_miss, htrip, hstop,
      CrowdPredictor.predict, hun]
  · intro req' s' hun' d
    have hp : s'.bundle.predict req'.trip_id req'.stop_id req'.departure_time req'.date s'.db
        = .error (.valueError "Model must be trained before making predictions") := by
      simp [CrowdPredictor.predict, hun']
    simp only [predict_crowd, predict_crowd_miss, hp]
    split
    · simp
    · split
      · simp
      · split
        · simp
        · simp

def c5State : AppState :=
  { bundle := CrowdPredictor.init, cache := [], cacheUp := true, db := witDb }

/-- Witness for C5: the untrained initial bundle, an empty cache, and a
request for an existing trip and stop yield the 400 precondition response. -/
theorem claim5_witness :
    (predict_crowd witReq c5State).1 =
      .httpError 400 "Model must be trained before making predictions" :=
  (claim5_untrained_predict_400 witReq c5State rfl rfl witTrip rfl witStop rfl).1

/-- C10.  For a trained bundle, a predict whose stop resolves to a zone
identifier outside the fitted encoder's vocabulary fails:
`LabelEncoder.transform` raises its unseen-label `ValueError`, which the
route surfaces as a 400, not a prediction.  The zone resolves by Python
truthiness (`stop.zone_id or 'unknown'`): a null — or empty — zone falls
back to `"unknown"`. -/
theorem claim10_unseen_zone_400 (req : PredictionRequest) (s : AppState)
    (htr : s.bundle.is_trained = true)
    (hmiss : get_prediction s.cacheUp s.cache req.trip_id req.stop_id
      req.departure_time req.date = none)
    (dt : PyDatetime) (hdt : strptime_ymd_hms req.date req.departure_time = some dt)
    (tr : TripRec) (htrip : s.db.trips.find? (fun t => t.id == req.trip_id) = some tr)
    (st : StopRec) (hstop : s.db.stops.find? (fun x => x.id == req.stop_id) = some st)
    (hz : pyOr st.zone_id "unknown" ∉ s.bundle.label_encoder.classes) :
    (predict_crowd req s).1 = .httpError 400 "y contains previously unseen labels" := by
  have hp : s.bundle.predict req.trip_id req.stop_id req.departure_time req.date s.db
      = .error (.valueError "y contains previously unseen labels") := by
    simp [CrowdPredictor.predict, htr, hdt, hstop, htrip, leTransform, hz]
  simp [predict_crowd, hmiss, predict_crowd_miss, htrip, hstop, hp]

/-- A trained bundle whose fitted zone vocabulary is `["zA"]`. -/
def c10Bundle : CrowdPredictor :=
  { model := unfittedRF
    label_encoder := ⟨["zA"]⟩
    scaler := ⟨some []⟩
    feature_columns := featureColumnsInit
    is_trained := true }

def c10State : AppState :=
  { bundle := c10Bundle, cache := [], cacheUp := true, db := witDb }

/-- Witness for C10: the stop's zone `"z1"` is outside the fitted vocabulary
`["zA"]`, and the predict surfaces the unseen-label 400. -/
theorem claim10_witness :
    (predict_crowd witReq c10State).1 =
      .httpError 400 "y contains previously unseen labels" :=
  claim10_unseen_zone_400 witReq c10State rfl rfl ⟨2024, 1, 15, 8, 0, 0⟩ rfl
    witTrip rfl witStop rfl (by decide)

/-- The spec-side notion for C7: the arithmetic mean of the counts as an
exact rational, truncated to an integer (the counts are nonnegative, so
truncation agrees with the floor). -/
def specTruncMean (l : List Nat) : Nat :=
  ⌊((l.sum : ℚ) / (l.length : ℚ))⌋₊

/-- C7.  For a trip/stop pair with at least one matching observation the
historical average is the truncated arithmetic mean of `boarding_count` over
the matching rows; with no matching rows it is `None`, never 0. -/
theorem claim7_historical_average (db : Db) (trip_id stop_id : String) :
    (matching_obs db trip_id stop_id ≠ [] →
      _get_historical_average db trip_id stop_id =
        some (specTruncMean ((matching_obs db trip_id stop_id).map (·.boarding_count)))) ∧
    (matching_obs db trip_id stop_id = [] →
      _get_historical_average db trip_id stop_id = none) := by
  constructor
  · intro h
    have hne : (matching_obs db trip_id stop_id).isEmpty = false := by
      simpa [List.isEmpty_iff] using h
    simp only [_get_historical_average, hne, Bool.false_eq_true, if_false, specTruncMean]
    rw [Nat.floor_div_eq_div, List.length_map]
  · intro h
    simp [_get_historical_average, h]

def c7Db : Db :=
  { routes := [], trips := [witTrip], stops := [witStop],
    observations :=
      [{ c6Obs with id := 1, boarding_count := 10 },
       { c6Obs with id := 2, boarding_count := 20 },
       { c6Obs with id := 3, boarding_count := 30 }] }

/-- Witness for C7: boarding counts 10, 20, 30 for `("t1", "s1")` average to
20; a pair with no rows yields `None`. -/
theorem claim7_witness :
    _get_historical_average c7Db "t1" "s1" = some 20 ∧
    _get_historical_average c7Db "t9" "s1" = none := by
  constructor
  · have h := (claim7_historical_average c7Db "t1" "s1").1 (by decide)
    rw [h]
    rw [show (matching_obs c7Db "t1" "s1").map (·.boarding_count) = [10, 20, 30] from rfl]
    norm_num [specTruncMean]
  · exact (claim7_historical_average c7Db "t9" "s1").2 (by decide)

/-- C8.  Cache failures never propagate: a get against an unreachable store
returns exactly a miss, a get that finds a blob `json.loads` rejects returns
exactly a miss, and a set against an unreachable store reports `False` and
leaves the store untouched — so a cache outage degrades the predict flow to
miss behaviour instead of failing the request. -/
theorem claim8_cache_errors_degrade_to_miss :
    (∀ store t s dep date, get_prediction false store t s dep date = none) ∧
    (∀ t s dep date rest,
      get_prediction true ((pred_cache_key t s dep date, Blob.garbage) :: rest)
        t s dep date = none) ∧
    (∀ store t s dep date r, set_prediction false store t s dep date r = (false, store)) := by
  refine ⟨fun store t s dep date => rfl, fun t s dep date rest => ?_, fun store t s dep date r => rfl⟩
  simp [get_prediction, storeLookup]

/-- C9.  A training run — successful or not — never touches the prediction
cache: the cache contents, cache reachability and database are unchanged,
and any prediction cached before the retrain is still served verbatim by a
subsequent predict for its key, even though it was computed by the replaced
model. -/
theorem claim9_train_preserves_cache (lib : SkLib) (rng : Nat → Bool) (s : AppState) :
    ((train_model lib rng s).2.cache = s.cache ∧
     (train_model lib rng s).2.cacheUp = s.cacheUp ∧
     (train_model lib rng s).2.db = s.db) ∧
    ∀ (req : PredictionRequest) (r : PredictionResponse),
      get_prediction s.cacheUp s.cache req.trip_id req.stop_id
        req.departure_time req.date = some r →
      (predict_crowd req (train_model lib rng s).2).1 = .ok r := by
  have hst : (train_model lib rng s).2.cache = s.cache ∧
      (train_model lib rng s).2.cacheUp = s.cacheUp ∧
      (train_model lib rng s).2.db = s.db := by
    unfold train_model
    split
    · exact ⟨rfl, rfl, rfl⟩
    · dsimp only
      split
      · exact ⟨rfl, rfl, rfl⟩
      · exact ⟨rfl, rfl, rfl⟩
  refine ⟨hst, fun req r h => ?_⟩
  simp only [predict_crowd, hst.1, hst.2.1, h]

def c9State : AppState :=
  { bundle := CrowdPredictor.init,
    cache := [(pred_cache_key "t1" "s1" "08:00:00" "2024-01-15", .valid witResp)],
    cacheUp := true, db := witDb }

/-- Witness for C9: after a train run over a concrete state whose cache holds
a prediction for the request key, the same predict still returns the cached
response unchanged. -/
theorem claim9_witness :
    (predict_crowd witReq (train_model skLibConc rngZero c9State).2).1 = .ok witResp :=
  (claim9_train_preserves_cache skLibConc rngZero c9State).2 witReq witResp rfl

/-! ## Encoder vocabulary lemmas -/

lemma mem_insertSorted_self (x : String) : ∀ l, x ∈ insertSorted x l := by
  intro l
  induction l with
  | nil => simp [insertSorted]
  | cons y ys ih =>
    simp only [insertSorted]
    split
    · exact List.mem_cons_self _ _
    · split
      · next h => exact h ▸ List.mem_cons_self _ _
      · exact List.mem_cons_of_mem _ ih

lemma mem_insertSorted_of_mem (x z : String) : ∀ l, z ∈ l → z ∈ insertSorted x l := by
  intro l
  induction l with
  | nil => intro h; exact absurd h (List.not_mem_nil z)
  | cons y ys ih =>
    intro h
    simp only [insertSorted]
    split
    · exact List.mem_cons_of_mem _ h
    · split
      · exact h
      · rcases List.mem_cons.1 h with rfl | h2
        · exact List.mem_cons_self _ _
        · exact List.mem_cons_of_mem _ (ih h2)

lemma mem_foldl_insertSorted :
    ∀ (data acc : List String) (z : String),
      z ∈ acc ∨ z ∈ data → z ∈ data.foldl (fun a x => insertSorted x a) acc := by
  intro data
  induction data with
  | nil =>
    intro acc z h
    exact h.resolve_right (List.not_mem_nil z)
  | cons d ds ih =>
    intro acc z h
    simp only [List.foldl_cons]
    apply ih
    rcases h with ha | hd
    · exact Or.inl (mem_insertSorted_of_mem d z acc ha)
    · rcases List.mem_cons.1 hd with rfl | h2
      · exact Or.inl (mem_insertSorted_self z acc)
      · exact Or.inr h2

/-- Every value an encoder was fit on is in its fitted vocabulary. -/
lemma mem_leFit (data : List String) (z : String) (h : z ∈ data) :
    z ∈ (leFit data).classes :=
  mem_foldl_insertSorted data [] z (Or.inr h)

/-- C3.  Training-time and inference-time feature derivation agree: the
inference dict's field order and count are exactly the training projection's
`feature_columns` (12 fields); both paths derive the same Monday-based day of
week and the same {5, 6} weekend convention; `fit_transform` scales each raw
value exactly as the inference-time `transform` with the stored parameters
does, and a label seen at fit time is transformed to its fit-time index by
the already fitted encoder; and a predict call never mutates the bundle
(nothing is refit at inference). -/
theorem claim3_train_inference_consistency :
    (predict_feature_names = featureColumnsInit ∧
     CrowdPredictor.init.feature_columns = predict_feature_names ∧
     predict_feature_names.length = 12) ∧
    (∀ t : PyDatetime, pdDayofweek t = pyWeekday t ∧
      train_is_weekend t = predict_is_weekend t) ∧
    (∀ (std : List ℚ → ℚ) (rows : List (List ℚ)),
      (scalerFitTransform std rows).2 =
        rows.map (scalerTransformRow (scalerFitTransform std rows).1)) ∧
    (∀ (data : List String) (z : String), z ∈ data →
      leTransform (leFitTransform data).1 z =
        some (classIndex (leFitTransform data).1.classes z)) ∧
    (∀ (req : PredictionRequest) (s : AppState),
      ((predict_crowd req s).2).bundle = s.bundle) := by
  refine ⟨⟨rfl, rfl, rfl⟩, fun t => ⟨rfl, rfl⟩, fun std rows => rfl, ?_, ?_⟩
  · intro data z h
    have hm : z ∈ (leFitTransform data).1.classes := mem_leFit data z h
    simp [leTransform, hm]
  · intro req s
    unfold predict_crowd
    split
    · rfl
    · unfold predict_crowd_miss
      split
      · rfl
      · split
        · rfl
        · split <;> rfl

/-- Witness for C3: a concrete vocabulary and a concrete label seen at fit
time, with the encoder-consistency hypothesis discharged by evaluation. -/
theorem claim3_witness :
    leTransform (leFitTransform ["z1", "z2"]).1 "z2" =
      some (classIndex (leFitTransform ["z1", "z2"]).1.classes "z2") :=
  claim3_train_inference_consistency.2.2.2.1 ["z1", "z2"] "z2" (by decide)
